import Mathlib

/-!
Verification model of the StoryForge pipeline core (orchestrator, session
manager, agent stage loops, retry classification), shallowly embedded from
the Python sources under `src/storyforge/`.
-/

namespace StoryForge

/-! ## String scanning primitives

Python's `re.search` on the fixed patterns used by the agents is modelled by
direct left-to-right scans over character lists.  `\s` is modelled by the
ASCII whitespace class, `\d` by decimal digits, and the `re.IGNORECASE` flag
by mapping characters through `Char.toLower`. -/

/-- ASCII whitespace, the characters matched by `\s` for the ASCII texts the
agents produce. -/
def isSpaceChar (c : Char) : Bool :=
  c = ' ' || c = '\t' || c = '\n' || c = '\r' || c = '\x0b' || c = '\x0c'

/-- Case-folding used to model `re.IGNORECASE` and `str.lower()`. -/
def lcList (l : List Char) : List Char := l.map Char.toLower

/-- Substring containment (`pat in s` / an unanchored `re.search` of a literal). -/
def containsSub (s pat : List Char) : Bool :=
  match s with
  | [] => pat.isEmpty
  | _ :: tl => pat.isPrefixOf s || containsSub tl pat

/-- Case-insensitive substring containment. -/
def containsSubCI (s pat : List Char) : Bool := containsSub (lcList s) (lcList pat)

/-- Does `pre` start `l`? -/
def startsWith (l pre : List Char) : Bool := pre.isPrefixOf l

/-- Digits of a decimal numeral to its value. -/
def digitsToNat (ds : List Char) : Nat :=
  ds.foldl (fun acc c => acc * 10 + (c.toNat - '0'.toNat)) 0

/-- Python `str.strip()` (both ends, ASCII whitespace). -/
def pyStrip (l : List Char) : List Char :=
  ((l.dropWhile isSpaceChar).reverse.dropWhile isSpaceChar).reverse

/-- `str.split('\n')`: split at newlines, keeping empty pieces. -/
def splitLinesAux (acc : List Char) : List Char → List (List Char)
  | [] => [acc.reverse]
  | c :: tl =>
    if c = '\n' then acc.reverse :: splitLinesAux [] tl
    else splitLinesAux (c :: acc) tl

def splitLines (l : List Char) : List (List Char) := splitLinesAux [] l

/-- One line of the `- item` list syntax both parsers use:
`line.strip().lstrip('-').strip()` for lines whose stripped form starts
with `-`; other lines are dropped. -/
def dashItem (line : List Char) : Option (List Char) :=
  let s := pyStrip line
  if s.isEmpty then none
  else if startsWith s ['-'] then some (pyStrip (s.dropWhile (· = '-')))
  else none

def dashLines (text : List Char) : List (List Char) :=
  (splitLines text).filterMap dashItem

/-- The lazy tail `(.*?)(?:stop₁|stop₂|$)` with `re.DOTALL`: everything up to
(excluding) the first position where one of the stop strings begins, or the
whole remainder when none occurs. -/
def takeUntilStops (stops : List (List Char)) : List Char → List Char
  | [] => []
  | l@(c :: tl) =>
    if stops.any (fun p => startsWith l p) then []
    else c :: takeUntilStops stops tl

/-- Leftmost match of `Score:\s*(\d+)` (case sensitive), returning group 1. -/
def scoreAt (l : List Char) : Option Nat :=
  if startsWith l ("Score:".toList) then
    let rest := (l.drop 6).dropWhile isSpaceChar
    let ds := rest.takeWhile Char.isDigit
    if ds.isEmpty then none else some (digitsToNat ds)
  else none

def findScore : List Char → Option Nat
  | [] => none
  | l@(_ :: tl) =>
    match scoreAt l with
    | some n => some n
    | none => findScore tl

/-- Scan for `Approved:\s*(Yes|No)` over an already lower-cased text
(the regex is compiled with `re.IGNORECASE`). -/
def approvedScan : List Char → Option Bool
  | [] => none
  | l@(_ :: tl) =>
    if startsWith l ("approved:".toList) then
      let rest := (l.drop 9).dropWhile isSpaceChar
      if startsWith rest ("yes".toList) then some true
      else if startsWith rest ("no".toList) then some false
      else approvedScan tl
    else approvedScan tl

/-- Leftmost match of `Approved:\s*(Yes|No)` with `re.IGNORECASE`;
`some true` for `Yes`, `some false` for `No`. -/
def findApproved (l : List Char) : Option Bool := approvedScan (lcList l)

/-- Leftmost match of `key\s*(\d+)(.*?)(?:stops|$)` with `re.DOTALL`,
returning the numeric group 1 and the lazy body group 2.  Used for the
`Errors:` and `Warnings:` sections of the consistency report. -/
def countSectionAt (key : List Char) (stops : List (List Char)) (l : List Char) :
    Option (Nat × List Char) :=
  if startsWith l key then
    let rest := (l.drop key.length).dropWhile isSpaceChar
    let ds := rest.takeWhile Char.isDigit
    if ds.isEmpty then none
    else some (digitsToNat ds, takeUntilStops stops (rest.drop ds.length))
  else none

def findCountSection (key : List Char) (stops : List (List Char)) :
    List Char → Option (Nat × List Char)
  | [] => none
  | l@(_ :: tl) =>
    match countSectionAt key stops l with
    | some r => some r
    | none => findCountSection key stops tl

/-- Leftmost match of `key(.*?)(?:stops|$)` with `re.DOTALL`, returning the
lazy group.  Used for the `Issues:` and `Suggestions:` sections of the QA
report. -/
def findSection (key : List Char) (stops : List (List Char)) :
    List Char → Option (List Char)
  | [] => none
  | l@(_ :: tl) =>
    if startsWith l key then some (takeUntilStops stops (l.drop key.length))
    else findSection key stops tl

/-! ## QA report parsing (`QualityAssuranceAgent._parse_qa_result`) -/

structure QAParsed where
  score : Nat
  issues : List (List Char)
  suggestions : List (List Char)
  approved : Bool
  raw_review : List Char
deriving Repr, DecidableEq

namespace QualityAssuranceAgent

/-- `QualityAssuranceAgent._parse_qa_result(content)`; `threshold` is the
agent's `self.quality_threshold` at parse time. -/
def parseQAResult (threshold : Nat) (content : List Char) : QAParsed :=
  let score := (findScore content).getD 0
  let issues :=
    match findSection ("Issues:".toList)
        [("Suggestions:".toList), ("Approved:".toList)] content with
    | some txt => dashLines txt
    | none => []
  let suggestions :=
    match findSection ("Suggestions:".toList) [("Approved:".toList)] content with
    | some txt => dashLines txt
    | none => []
  let approved :=
    match findApproved content with
    | some b => b
    | none => decide (threshold ≤ score)
  ⟨score, issues, suggestions, approved, content⟩

end QualityAssuranceAgent

/-! ## Consistency report parsing (`ConsistencyAgent._parse_consistency_result`) -/

structure ConsistencyParsed where
  errors : List (List Char)
  warnings : List (List Char)
  approved : Bool
  raw_report : List Char
deriving Repr, DecidableEq

namespace ConsistencyAgent

/-- `ConsistencyAgent._parse_consistency_result(content)`. -/
def parseConsistencyResult (content : List Char) : ConsistencyParsed :=
  let errSec := findCountSection ("Errors:".toList)
    [("Warnings:".toList), ("Approved:".toList)] content
  let (approved0, errors) :=
    match errSec with
    | some (count, txt) =>
      if 0 < count then (false, dashLines txt) else (true, [])
    | none => (true, [])
  let warnings :=
    match findCountSection ("Warnings:".toList) [("Approved:".toList)] content with
    | some (_, txt) => dashLines txt
    | none => []
  let approved :=
    match findApproved content with
    | some b => b
    | none => approved0
  ⟨errors, warnings, approved, content⟩

end ConsistencyAgent

/-! ## Provider-error classification and retry (`main.py`) -/

namespace Main

/-- A provider exception as the classifiers see it: an optional HTTP status
(the code's best-effort attribute extraction) and `str(exc)`. -/
structure ProviderError where
  status : Option Int
  message : List Char
deriving Repr, DecidableEq

def networkHints : List (List Char) :=
  [("timeout".toList), ("timed out".toList), ("connection reset".toList),
   ("temporarily unavailable".toList), ("connection aborted".toList),
   ("connection refused".toList), ("server disconnected".toList)]

/-- The hard rate-limit test inside the 429 branch:
`"rate limit" in message and ("exceeded" in message or "too many" in message)`. -/
def hardRateLimitMsg (m : List Char) : Bool :=
  containsSub m ("rate limit".toList) &&
    (containsSub m ("exceeded".toList) || containsSub m ("too many".toList))

/-- `is_transient_error(exc)`; branch order follows the source, including the
fact that the `400 <= status < 500` check precedes (and therefore shadows)
the `408` member of the server-error tuple. -/
def is_transient_error (e : ProviderError) : Bool :=
  let m := lcList e.message
  match e.status with
  | some sc =>
    if sc = 400 || sc = 401 || sc = 403 then false
    else if sc = 429 then !(hardRateLimitMsg m)
    else if sc ≠ 0 && (400 ≤ sc && sc < 500) then false
    else if sc = 408 || sc = 500 || sc = 502 || sc = 503 || sc = 504 then true
    else networkHints.any (fun h => containsSub m h)
  | none => networkHints.any (fun h => containsSub m h)

/-- `should_retry_provider_error(exc)`. -/
def should_retry_provider_error (e : ProviderError) : Bool :=
  let m := lcList e.message
  if containsSub m ("inference server".toList) || containsSub m ("model inference".toList) then
    true
  else if containsSub m ("unknown".toList) && containsSub m ("error".toList) then
    true
  else is_transient_error e

def BASE_BACKOFF : ℚ := 3 / 2

/-- The delay `_sleep_backoff(attempt)` sleeps: `BASE_BACKOFF ** attempt`
capped at 10 seconds. -/
def sleepDelay (attempt : Nat) : ℚ :=
  let delay := BASE_BACKOFF ^ attempt
  if delay > 10 then 10 else delay

/-- The retry loop around a model call (`main.py` lines 981-991 and
1650-1657): attempts are numbered `1..maxAttempts`; a failed attempt is
retried only if it is not the last one and `should_retry_provider_error`
holds, sleeping `sleepDelay attempt` first.  Returns the outcome and the
number of the attempt that settled it.  `fuel` is `maxAttempts - attempt`
and only bounds the recursion. -/
def retryFromAux {α : Type} (call : Nat → Except ProviderError α)
    (maxAttempts : Nat) : Nat → Nat → Except ProviderError α × Nat
  | attempt, fuel =>
    match call attempt with
    | .ok a => (.ok a, attempt)
    | .error e =>
      if attempt = maxAttempts || !should_retry_provider_error e then (.error e, attempt)
      else
        match fuel with
        | 0 => (.error e, attempt)
        | fuel' + 1 => retryFromAux call maxAttempts (attempt + 1) fuel'

def retryCall {α : Type} (call : Nat → Except ProviderError α)
    (maxAttempts : Nat) : Except ProviderError α × Nat :=
  retryFromAux call maxAttempts 1 (maxAttempts - 1)

end Main

/-! ## Stage results as the orchestrator sees them

The orchestrator reads agent result dicts only through a few keys
(`success`, `approved`, `score`, `project_path`, `revised`, `fixed`), always
with defaults, so each stage's dict is modelled by a record of those keys. -/

inductive Stage
  | settings | planning | writing | qa | consistency
deriving DecidableEq, BEq, Repr

def Stage.name : Stage → String
  | .settings => "settings"
  | .planning => "planning"
  | .writing => "writing"
  | .qa => "qa"
  | .consistency => "consistency"

structure SettingsResult where
  success : Bool
deriving DecidableEq, Repr

structure PlanningResultO where
  success : Bool
  project_path : Option String
deriving DecidableEq, Repr

structure WritingResultO where
  success : Bool
  word_count : Nat
deriving DecidableEq, Repr

structure QAResultO where
  success : Bool
  approved : Bool
  score : Nat
deriving DecidableEq, Repr

structure ConsistencyResultO where
  success : Bool
  approved : Bool
deriving DecidableEq, Repr

structure RevisionOutcome where
  revised : Bool
deriving DecidableEq, Repr

structure FixOutcome where
  fixed : Bool
deriving DecidableEq, Repr

/-- The payload stored in `session["results"][stage]`. -/
inductive StageData
  | settingsD (r : SettingsResult)
  | planningD (r : PlanningResultO)
  | writingD (r : WritingResultO)
  | qaD (r : QAResultO)
  | consistencyD (r : ConsistencyResultO)
deriving DecidableEq, Repr

/-! ## SessionManager (`session_manager.py`) -/

/-- The persisted session record.  Wall-clock timestamps are threaded in as
explicit `now` arguments to the mutators. -/
structure Session where
  session_id : String
  user_prompt : String
  created_at : Nat
  updated_at : Nat
  status : String
  current_stage : String
  completed_stages : List Stage
  project_path : Option String
  results : Stage → Option StageData
  qa_iterations : Nat
  final_score : Option Nat
  error : Option String

namespace SessionManager

def STAGES : List Stage := [.settings, .planning, .writing, .qa, .consistency]

/-- `SessionManager.create_session`. -/
def create_session (session_id user_prompt : String) (now : Nat) : Session :=
  { session_id := session_id
    user_prompt := user_prompt
    created_at := now
    updated_at := now
    status := "in_progress"
    current_stage := "settings"
    completed_stages := []
    project_path := none
    results := fun _ => none
    qa_iterations := 0
    final_score := none
    error := none }

/-- The success branch of `update_stage`: record the stage as completed and
advance `current_stage` (session_manager.py lines 97-107). -/
def advanceStage (s : Session) (stage : Stage) : Session :=
  let s :=
    if s.completed_stages.contains stage then s
    else { s with completed_stages := s.completed_stages ++ [stage] }
  let stage_index := STAGES.indexOf stage
  if stage_index < STAGES.length - 1 then
    { s with current_stage := (STAGES.getD (stage_index + 1) .consistency).name }
  else
    { s with current_stage := "complete", status := "complete" }

/-- The project-path tracking of `update_stage` (session_manager.py lines
109-111): `result.get("project_path")` truthy only for a non-empty path. -/
def trackProjectPath (s : Session) (stage : Stage) (result : StageData) : Session :=
  if stage = .planning then
    match result with
    | .planningD r =>
      match r.project_path with
      | some p => if p = "" then s else { s with project_path := some p }
      | none => s
    | _ => s
  else s

/-- The QA-score tracking of `update_stage` (session_manager.py lines
113-117): `result.get("score")` truthy only for a non-zero score. -/
def trackQAScore (s : Session) (stage : Stage) (result : StageData) : Session :=
  if stage = .qa then
    let s := { s with qa_iterations := s.qa_iterations + 1 }
    match result with
    | .qaD r => if r.score ≠ 0 then { s with final_score := some r.score } else s
    | _ => s
  else s

/-- `SessionManager.update_stage(stage, result, success)`. -/
def update_stage (s : Session) (stage : Stage) (result : StageData)
    (success : Bool) (now : Nat) : Session :=
  let s := { s with
    results := fun st => if st = stage then some result else s.results st
    updated_at := now }
  let s := if success then advanceStage s stage else s
  let s := trackProjectPath s stage result
  trackQAScore s stage result

/-- `SessionManager.mark_failed(stage, error)` (`stage` is a raw string:
the orchestrator also passes `"pipeline"`). -/
def mark_failed (s : Session) (stage error : String) (now : Nat) : Session :=
  { s with status := "failed", current_stage := stage, error := some error,
           updated_at := now }

/-- `SessionManager.mark_complete(final_score)`. -/
def mark_complete (s : Session) (final_score : Option Nat) (now : Nat) : Session :=
  let s := { s with status := "complete", current_stage := "complete",
                    updated_at := now }
  match final_score with
  | some sc => { s with final_score := some sc }
  | none => s

/-- `SessionManager.should_skip_stage(stage)`. -/
def should_skip_stage (s : Session) (stage : Stage) : Bool :=
  s.completed_stages.contains stage

/-- `SessionManager.get_stage_result(stage)`. -/
def get_stage_result (s : Session) (stage : Stage) : Option StageData :=
  s.results stage

/-- `SessionManager.get_incomplete_sessions()` over the session files on
disk: keep `status == "in_progress"`, most recently updated first. -/
def get_incomplete_sessions (sessions : List Session) : List Session :=
  (sessions.filter (fun s => s.status = "in_progress")).mergeSort
    (fun a b => decide (b.updated_at ≤ a.updated_at))

end SessionManager

/-! ## Orchestrator (`orchestrator.py`)

The five agents are external callees from the orchestrator's point of view;
an `OrchestratorEnv` supplies the result of each successive agent call
(indexed streams for the calls made repeatedly inside the revision/fix
logic). -/

namespace StoryForgeOrchestrator

structure OrchestratorEnv where
  settingsResult : SettingsResult
  planningResult : PlanningResultO
  writingResult : WritingResultO
  qaReview : Nat → QAResultO
  qaRevision : Nat → RevisionOutcome
  validate : Nat → ConsistencyResultO
  fix : FixOutcome
  now : Nat

/-- The `results` dict `run` returns.  `partial_success` is `none` when the
pipeline aborts before the final classification (the key is never set on
the early-return paths). -/
structure PipelineResults where
  user_prompt : String
  settings : Option SettingsResult
  planning : Option PlanningResultO
  writing : Option WritingResultO
  qa : Option QAResultO
  consistency : Option ConsistencyResultO
  success : Bool
  partial_success : Option Bool
  session_id : String

def projSettings : Option StageData → Option SettingsResult
  | some (.settingsD r) => some r
  | _ => none

def projPlanning : Option StageData → Option PlanningResultO
  | some (.planningD r) => some r
  | _ => none

def projWriting : Option StageData → Option WritingResultO
  | some (.writingD r) => some r
  | _ => none

def projQA : Option StageData → Option QAResultO
  | some (.qaD r) => some r
  | _ => none

def projConsistency : Option StageData → Option ConsistencyResultO
  | some (.consistencyD r) => some r
  | _ => none

/-- The auto-revision loop of `run` (orchestrator.py lines 208-237).
`qa` is the current `qa_result`, `cycle` the `revision_cycle` counter so
far, `ri` the index of the next `review_content` call, and `fuel` equals
`max_revision_cycles - cycle` (the budget is 3).  Returns the final
`qa_result` together with the final `revision_cycle`. -/
def qaRevisionLoop (env : OrchestratorEnv) :
    QAResultO → Nat → Nat → Nat → QAResultO × Nat
  | qa, cycle, _, 0 => (qa, cycle)
  | qa, cycle, ri, fuel + 1 =>
    if qa.approved || !qa.success then (qa, cycle)
    else
      let current_score := qa.score
      if (env.qaRevision cycle).revised then
        let qa2 := env.qaReview ri
        if 90 ≤ qa2.score then (qa2, cycle + 1)
        else if qa2.score ≤ current_score then (qa2, cycle + 1)
        else qaRevisionLoop env qa2 (cycle + 1) (ri + 1) fuel
      else (qa, cycle + 1)

/-- The QA stage body: initial review then the bounded revision loop. -/
def qaPhase (env : OrchestratorEnv) : QAResultO × Nat :=
  qaRevisionLoop env (env.qaReview 0) 0 1 3

/-- The consistency stage body: validate, optionally auto-fix and
re-validate (orchestrator.py lines 259-275). -/
def consistencyPhase (env : OrchestratorEnv) : ConsistencyResultO :=
  let c := env.validate 0
  if !c.approved && c.success then
    if env.fix.fixed then env.validate 1 else c
  else c

/-- Agent 1 block of `run` (orchestrator.py lines 95-123): run or skip the
settings stage, persist, and abort the pipeline on failure (`.error` is the
early `return results`). -/
def settingsStep (env : OrchestratorEnv) (s0 : Session) (r : PipelineResults) :
    Except (Session × PipelineResults) (Session × PipelineResults) :=
  let skip := SessionManager.should_skip_stage s0 .settings
  let used : Option SettingsResult :=
    if skip then projSettings (SessionManager.get_stage_result s0 .settings)
    else some env.settingsResult
  let s1 :=
    if skip then s0
    else SessionManager.update_stage s0 .settings (.settingsD env.settingsResult)
      env.settingsResult.success env.now
  let r1 := { r with settings := used }
  if !skip && !env.settingsResult.success then
    .error (SessionManager.mark_failed s1 "settings" "Settings validation failed" env.now, r1)
  else .ok (s1, r1)

/-- Agent 2 block of `run` (orchestrator.py lines 130-155). -/
def planningStep (env : OrchestratorEnv) (s1 : Session) (r : PipelineResults) :
    Except (Session × PipelineResults) (Session × PipelineResults) :=
  let skip := SessionManager.should_skip_stage s1 .planning
  let used : Option PlanningResultO :=
    if skip then projPlanning (SessionManager.get_stage_result s1 .planning)
    else some env.planningResult
  let s2 :=
    if skip then s1
    else SessionManager.update_stage s1 .planning (.planningD env.planningResult)
      env.planningResult.success env.now
  let r2 := { r with planning := used }
  if !skip && !env.planningResult.success then
    .error (SessionManager.mark_failed s2 "planning" "Story planning failed" env.now, r2)
  else .ok (s2, r2)

/-- Agent 3 block of `run` (orchestrator.py lines 160-186). -/
def writingStep (env : OrchestratorEnv) (s2 : Session) (r : PipelineResults) :
    Except (Session × PipelineResults) (Session × PipelineResults) :=
  let skip := SessionManager.should_skip_stage s2 .writing
  let used : Option WritingResultO :=
    if skip then projWriting (SessionManager.get_stage_result s2 .writing)
    else some env.writingResult
  let s3 :=
    if skip then s2
    else SessionManager.update_stage s2 .writing (.writingD env.writingResult)
      env.writingResult.success env.now
  let r3 := { r with writing := used }
  if !skip && !env.writingResult.success then
    .error (SessionManager.mark_failed s3 "writing" "Story writing failed" env.now, r3)
  else .ok (s3, r3)

/-- Agent 4 block of `run` (orchestrator.py lines 193-244): review plus the
bounded auto-revision loop; an unmet qa gate never aborts the pipeline. -/
def qaStep (env : OrchestratorEnv) (s3 : Session) (r : PipelineResults) :
    Session × PipelineResults :=
  let skip := SessionManager.should_skip_stage s3 .qa
  let qaFinal := (qaPhase env).1
  let used : Option QAResultO :=
    if skip then projQA (SessionManager.get_stage_result s3 .qa)
    else some qaFinal
  let s4 :=
    if skip then s3
    else SessionManager.update_stage s3 .qa (.qaD qaFinal) qaFinal.success env.now
  (s4, { r with qa := used })

/-- Agent 5 block of `run` (orchestrator.py lines 249-282): validate plus
the auto-fix pass; an unmet consistency gate never aborts the pipeline. -/
def consistencyStep (env : OrchestratorEnv) (s4 : Session) (r : PipelineResults) :
    Session × PipelineResults :=
  let skip := SessionManager.should_skip_stage s4 .consistency
  let cFinal := consistencyPhase env
  let used : Option ConsistencyResultO :=
    if skip then projConsistency (SessionManager.get_stage_result s4 .consistency)
    else some cFinal
  let s5 :=
    if skip then s4
    else SessionManager.update_stage s4 .consistency (.consistencyD cFinal)
      cFinal.success env.now
  (s5, { r with consistency := used })

/-- Final classification of `run` (orchestrator.py lines 287-316), reading
the writing/qa/consistency results the run recorded (the variables
`writing_result`/`qa_result`/`consistency_result` in the code are the same
objects as `results[...]`); `dict.get` defaults apply. -/
def classify (s5 : Session) (r5 : PipelineResults) (now : Nat) :
    Session × PipelineResults :=
  let writing_ok := (r5.writing.map (fun w => w.success)).getD false
  let qa_approved := (r5.qa.map (fun q => q.approved)).getD false
  let consistency_approved := (r5.consistency.map (fun c => c.approved)).getD false
  let success := writing_ok && qa_approved && consistency_approved
  let partialSucc := writing_ok && !success
  let r6 := { r5 with success := success, partial_success := some partialSucc }
  let s6 :=
    if success then
      SessionManager.mark_complete s5 (r5.qa.map (fun q => q.score)) now
    else if partialSucc then
      SessionManager.mark_complete s5 (some ((r5.qa.map (fun q => q.score)).getD 0)) now
    else
      SessionManager.mark_failed s5 "pipeline" "Content generation incomplete" now
  (s6, r6)

/-- The `results` dict as `run` initialises it (orchestrator.py lines
81-90). -/
def initialResults (user_prompt session_id : String) : PipelineResults :=
  { user_prompt := user_prompt, settings := none, planning := none,
    writing := none, qa := none, consistency := none,
    success := false, partial_success := none, session_id := session_id }

/-- `StoryForgeOrchestrator.run` after the session has been created or
loaded (`s0`): stage sequencing, skip logic, persistence, gates, and the
final success classification.  Reads of a skipped stage persisted dict
are modelled with defaults (`success=False`) where the Python would fail on
a missing key; such sessions are not produced by the orchestrator. -/
def run (user_prompt : String) (s0 : Session) (env : OrchestratorEnv) :
    Session × PipelineResults :=
  match settingsStep env s0 (initialResults user_prompt s0.session_id) with
  | .error out => out
  | .ok (s1, r1) =>
    match planningStep env s1 r1 with
    | .error out => out
    | .ok (s2, r2) =>
      match writingStep env s2 r2 with
      | .error out => out
      | .ok (s3, r3) =>
        let (s4, r4) := qaStep env s3 r3
        let (s5, r5) := consistencyStep env s4 r4
        classify s5 r5 env.now

end StoryForgeOrchestrator

/-! ## Agent conversation loops (`agents/*.py`)

A stage loop repeatedly calls the chat-completion API, dispatches the
returned tool calls, and stops on a completion sentinel or after a fixed
number of iterations.  The external world (model responses, `json.loads`,
the tool registry) is an oracle `AgentEnv`: `respond i` is the response of
the model call in iteration `i` (`.error` = transport exception),
`parseJson` is `json.loads` on an argument string (`none` = malformed), and
`toolMap` is the registry (a tool returns its `str(result)` or raises). -/

structure ToolCall where
  id : String
  name : String
  arguments : String
deriving DecidableEq, Repr

structure ModelResponse where
  content : List Char
  tool_calls : List ToolCall
deriving DecidableEq, Repr

structure Msg where
  role : String
  content : List Char
  tool_call_id : Option String
  name : Option String
  tool_calls : List ToolCall
deriving DecidableEq, Repr

def assistantMsg (content : List Char) (tcs : List ToolCall) : Msg :=
  ⟨"assistant", content, none, none, tcs⟩

def toolMsg (tc : ToolCall) (content : List Char) : Msg :=
  ⟨"tool", content, some tc.id, some tc.name, []⟩

structure AgentEnv where
  respond : Nat → Except (List Char) ModelResponse
  parseJson : String → Option String
  toolMap : String → Option (String → Except (List Char) (List Char))

/-- Leftmost match of `Active project:\s*'([^']+)'` (planner_agent.py line
134), returning group 1. -/
def activeProjectAt (l : List Char) : Option (List Char) :=
  if startsWith l ("Active project:".toList) then
    let rest := (l.drop 15).dropWhile isSpaceChar
    match rest with
    | '\'' :: tl =>
      let path := tl.takeWhile (· ≠ '\'')
      if path.isEmpty then none
      else if (tl.drop path.length).head? = some '\'' then some path else none
    | _ => none
  else none

def findActiveProject : List Char → Option (List Char)
  | [] => none
  | l@(_ :: tl) =>
    match activeProjectAt l with
    | some p => some p
    | none => findActiveProject tl

/-- The tool-dispatch block shared by `QualityAssuranceAgent.review_content`
and `ConsistencyAgent.validate_consistency`: malformed JSON is logged and
the call skipped; an unknown tool is skipped; a raised tool exception is
appended as an `ERROR: <message>` tool message.  Appends only. -/
def execToolCallsMain (env : AgentEnv) : List ToolCall → List Msg → List Msg
  | [], msgs => msgs
  | tc :: rest, msgs =>
    match env.parseJson tc.arguments with
    | none => execToolCallsMain env rest msgs
    | some args =>
      match env.toolMap tc.name with
      | none => execToolCallsMain env rest msgs
      | some f =>
        match f args with
        | .ok result => execToolCallsMain env rest (msgs ++ [toolMsg tc result])
        | .error e => execToolCallsMain env rest (msgs ++ [toolMsg tc (("ERROR: ".toList) ++ e)])

/-- The tool-dispatch block of `QualityAssuranceAgent.revise_if_needed` and
`ConsistencyAgent.fix_if_needed`: as `execToolCallsMain`, except a raised
tool exception is only logged — no tool message is appended for it. -/
def execToolCallsQuiet (env : AgentEnv) : List ToolCall → List Msg → List Msg
  | [], msgs => msgs
  | tc :: rest, msgs =>
    match env.parseJson tc.arguments with
    | none => execToolCallsQuiet env rest msgs
    | some args =>
      match env.toolMap tc.name with
      | none => execToolCallsQuiet env rest msgs
      | some f =>
        match f args with
        | .ok result => execToolCallsQuiet env rest (msgs ++ [toolMsg tc result])
        | .error _ => execToolCallsQuiet env rest msgs

namespace PlannerAgent

/-- `PlannerAgent.plan`'s environment: the shared oracle plus the outcome of
the `_critique_and_refine` call made after the sentinel appears (`none`
models its exception path returning `None`). -/
structure PlannerEnv extends AgentEnv where
  critique : Option (List Char)

/-- The result dict of `PlannerAgent.plan`; absent keys are `none`/empty. -/
structure PlanResult where
  success : Bool
  project_path : Option (List Char)
  message : List Char
  iterations : Nat
  error : Option (List Char)
deriving DecidableEq, Repr

/-- The planner's tool-dispatch block (planner_agent.py lines 111-155): as
`execToolCallsMain`, additionally tracking `self.project_path` from a
successful `create_project` result. -/
def execToolCalls (env : AgentEnv) :
    List ToolCall → List Msg → Option (List Char) → List Msg × Option (List Char)
  | [], msgs, pp => (msgs, pp)
  | tc :: rest, msgs, pp =>
    match env.parseJson tc.arguments with
    | none => execToolCalls env rest msgs pp
    | some args =>
      match env.toolMap tc.name with
      | none => execToolCalls env rest msgs pp
      | some f =>
        match f args with
        | .ok result =>
          let pp' :=
            if tc.name = "create_project" && containsSub result ("Active project:".toList) then
              match findActiveProject result with
              | some p => some p
              | none => pp
            else pp
          execToolCalls env rest (msgs ++ [toolMsg tc result]) pp'
        | .error e =>
          execToolCalls env rest (msgs ++ [toolMsg tc (("ERROR: ".toList) ++ e)]) pp

/-- The planning loop (planner_agent.py lines 70-170): iteration `i`,
`fuel = max_iterations - i + 1`, current history and `self.project_path`.
The sentinel path runs the critique call and returns success; a transport
exception returns a hard failure; fuel exhaustion returns the
`success=False` max-iterations failure dict. -/
def planLoopAux (env : PlannerEnv) :
    Nat → Nat → List Msg → Option (List Char) → PlanResult
  | _, 0, _, _ =>
    ⟨false, none, [], 10, some ("Max planning iterations reached without completion".toList)⟩
  | i, fuel + 1, msgs, pp =>
    match env.respond i with
    | .error e => ⟨false, none, [], i, some e⟩
    | .ok resp =>
      let content := resp.content
      if containsSub content ("PLANNING COMPLETE".toList) then
        let content2 :=
          match env.critique with
          | some c => if c.isEmpty then content else c
          | none => content
        ⟨true, pp, content2, i, none⟩
      else
        let msgs1 := msgs ++ [assistantMsg content resp.tool_calls]
        let (msgs2, pp') := execToolCalls env.toAgentEnv resp.tool_calls msgs1 pp
        planLoopAux env (i + 1) fuel msgs2 pp'

/-- `PlannerAgent.plan` from the start of its main loop (`max_iterations =
10`, fresh `self.project_path`); `msgs0` is the seeded `[system, user]`
history, whose prompt text is opaque to the control flow. -/
def plan (env : PlannerEnv) (msgs0 : List Msg) : PlanResult :=
  planLoopAux env 1 10 msgs0 none

end PlannerAgent

namespace QualityAssuranceAgent

/-- `QualityAssuranceAgent._get_context_aware_threshold(phase, iteration)`. -/
def contextAwareThreshold (phase : String) (iteration : Nat) : Nat :=
  let base :=
    if phase = "draft" then 70
    else if phase = "revision" then 80
    else if phase = "final" then 90
    else 80
  min (base + iteration * 5) 90

/-- The dict `review_content` returns; keys the failure dict omits read as
their `dict.get` defaults. -/
structure QAReview where
  success : Bool
  score : Nat
  issues : List (List Char)
  suggestions : List (List Char)
  approved : Bool
  raw_review : Option (List Char)
  error : Option (List Char)
deriving DecidableEq, Repr

/-- The review loop (qa_agent.py lines 95-166): `.error` = transport
exception, `.ok (some p)` = sentinel found and parsed, `.ok none` =
iteration budget exhausted. -/
def reviewLoopAux (env : AgentEnv) (threshold : Nat) :
    Nat → Nat → List Msg → Except (List Char) (Option QAParsed)
  | _, 0, _ => .ok none
  | i, fuel + 1, msgs =>
    match env.respond i with
    | .error e => .error e
    | .ok resp =>
      let content := resp.content
      if containsSub content ("QA REVIEW COMPLETE".toList) then
        .ok (some (parseQAResult threshold content))
      else
        let msgs1 := msgs ++ [assistantMsg content resp.tool_calls]
        let msgs2 := execToolCallsMain env resp.tool_calls msgs1
        reviewLoopAux env threshold (i + 1) fuel msgs2

/-- `QualityAssuranceAgent.review_content` (`max_iterations = 5`):
`iteration_count` is the agent's counter before the call (it is incremented
first and feeds the dynamic threshold), `msgs0` the seeded history. -/
def review_content (env : AgentEnv) (iteration_count : Nat) (phase : String)
    (msgs0 : List Msg) : QAReview :=
  let threshold := contextAwareThreshold phase (iteration_count + 1)
  match reviewLoopAux env threshold 1 5 msgs0 with
  | .error e => ⟨false, 0, [], [], false, none, some e⟩
  | .ok (some p) => ⟨true, p.score, p.issues, p.suggestions, p.approved, some p.raw_review, none⟩
  | .ok none =>
    ⟨true, 50, [("Review incomplete - max iterations reached".toList)],
      [("Manual review recommended".toList)], false, none, none⟩

end QualityAssuranceAgent

namespace ConsistencyAgent

/-- The dict `validate_consistency` returns; keys the failure dict omits
read as their `dict.get` defaults. -/
structure ConsistencyReview where
  success : Bool
  errors : List (List Char)
  warnings : List (List Char)
  approved : Bool
  raw_report : Option (List Char)
  error : Option (List Char)
deriving DecidableEq, Repr

/-- The consistency validation loop (consistency_agent.py lines 59-127). -/
def validateLoopAux (env : AgentEnv) :
    Nat → Nat → List Msg → Except (List Char) (Option ConsistencyParsed)
  | _, 0, _ => .ok none
  | i, fuel + 1, msgs =>
    match env.respond i with
    | .error e => .error e
    | .ok resp =>
      let content := resp.content
      if containsSub content ("CONSISTENCY CHECK COMPLETE".toList) then
        .ok (some (parseConsistencyResult content))
      else
        let msgs1 := msgs ++ [assistantMsg content resp.tool_calls]
        let msgs2 := execToolCallsMain env resp.tool_calls msgs1
        validateLoopAux env (i + 1) fuel msgs2

/-- `ConsistencyAgent.validate_consistency` (`max_iterations = 8`). -/
def validate_consistency (env : AgentEnv) (msgs0 : List Msg) : ConsistencyReview :=
  match validateLoopAux env 1 8 msgs0 with
  | .error e => ⟨false, [], [], false, none, some e⟩
  | .ok (some p) => ⟨true, p.errors, p.warnings, p.approved, some p.raw_report, none⟩
  | .ok none =>
    ⟨true, [("Validation incomplete - max iterations reached".toList)], [], false, none, none⟩

end ConsistencyAgent

/-! ## Proof-support definitions and concrete fixtures -/

/-- The effect of one `update_stage(stage, result, success)` call on
`completed_stages` alone. -/
def stepCompleted (c : List Stage) (stage : Stage) (b : Bool) : List Stage :=
  if b then (if c.contains stage then c else c ++ [stage]) else c

/-- The evolution of `completed_stages` over one pipeline run, as a function
of the starting list and the five stage success flags. -/
def runCompleted (c : List Stage) (b1 b2 b3 b4 b5 : Bool) : List Stage :=
  let c1 := if c.contains .settings then c else stepCompleted c .settings b1
  if !(c.contains .settings) && !b1 then c1
  else
    let c2 := if c1.contains .planning then c1 else stepCompleted c1 .planning b2
    if !(c1.contains .planning) && !b2 then c2
    else
      let c3 := if c2.contains .writing then c2 else stepCompleted c2 .writing b3
      if !(c2.contains .writing) && !b3 then c3
      else
        let c4 := if c3.contains .qa then c3 else stepCompleted c3 .qa b4
        if c4.contains .consistency then c4 else stepCompleted c4 .consistency b5

/-- A concrete environment for the revision-loop witness: first review 72,
revision runs, re-review again 72 (no improvement). -/
def envPlateau : StoryForgeOrchestrator.OrchestratorEnv :=
  { settingsResult := ⟨true⟩
    planningResult := ⟨true, some "output/proj"⟩
    writingResult := ⟨true, 6000⟩
    qaReview := fun _ => ⟨true, false, 72⟩
    qaRevision := fun _ => ⟨true⟩
    validate := fun _ => ⟨true, true⟩
    fix := ⟨false⟩
    now := 1 }

/-- A fresh session for the concrete pipeline runs below. -/
def sessionFresh : Session :=
  SessionManager.create_session "20240101_000000" "a mystery novella" 0

/-- A run in which writing succeeds but the qa gate stays unmet (score 72,
revision does not run), while consistency approves: the partial-success
outcome. -/
def envPartial : StoryForgeOrchestrator.OrchestratorEnv :=
  { settingsResult := ⟨true⟩
    planningResult := ⟨true, some "output/proj"⟩
    writingResult := ⟨true, 6000⟩
    qaReview := fun _ => ⟨true, false, 72⟩
    qaRevision := fun _ => ⟨false⟩
    validate := fun _ => ⟨true, true⟩
    fix := ⟨false⟩
    now := 1 }

/-- A run whose qa review hard-fails (transport error) while every other
stage succeeds: the orchestrator continues to consistency regardless. -/
def envQAFailure : StoryForgeOrchestrator.OrchestratorEnv :=
  { settingsResult := ⟨true⟩
    planningResult := ⟨true, some "output/proj"⟩
    writingResult := ⟨true, 6000⟩
    qaReview := fun _ => ⟨false, false, 0⟩
    qaRevision := fun _ => ⟨false⟩
    validate := fun _ => ⟨true, true⟩
    fix := ⟨false⟩
    now := 1 }

/-- A planner environment whose model never emits the planning sentinel and
never requests tools. -/
def envNoSentinel : PlannerAgent.PlannerEnv :=
  { respond := fun _ => .ok ⟨("still thinking".toList), []⟩
    parseJson := fun _ => none
    toolMap := fun _ => none
    critique := none }

/-- An agent environment whose single tool raises on every invocation. -/
def envToolRaises : AgentEnv :=
  { respond := fun _ => .ok ⟨[], []⟩
    parseJson := fun a => some a
    toolMap := fun _ => some (fun _ => .error ("boom".toList)) }

/-- An agent environment in which every argument string fails JSON
decoding. -/
def envBadJson : AgentEnv :=
  { respond := fun _ => .ok ⟨[], []⟩
    parseJson := fun _ => none
    toolMap := fun _ => some (fun a => .ok a.toList) }

/-! ## Theorems -/

/-- C4: for every QA completion text, an explicit `Approved: Yes`/`Approved:
No` line decides the parsed `approved` field regardless of the score, and in
its absence `approved` holds exactly when the extracted score reaches the
quality threshold (missing score reads as 0). -/
theorem qa_approval_derivation (threshold : Nat) (content : List Char) :
    (∀ b : Bool, findApproved content = some b →
      (QualityAssuranceAgent.parseQAResult threshold content).approved = b) ∧
    (findApproved content = none →
      ((QualityAssuranceAgent.parseQAResult threshold content).approved =
        decide (threshold ≤ (findScore content).getD 0))) := by
  constructor
  · intro b hb
    simp only [QualityAssuranceAgent.parseQAResult, hb]
  · intro hn
    simp only [QualityAssuranceAgent.parseQAResult, hn]

/-- Witness for C4: a sub-threshold score with an explicit `Approved: Yes`
line parses as approved, and with no approval line a score of 95 against
threshold 90 parses as approved. -/
theorem qa_approval_derivation_witness :
    (QualityAssuranceAgent.parseQAResult 90 ("Score: 50\nApproved: Yes".toList)).approved = true ∧
    (QualityAssuranceAgent.parseQAResult 90 ("Score: 95\nIssues:\n- none".toList)).approved = true := by
  constructor
  · exact (qa_approval_derivation 90 ("Score: 50\nApproved: Yes".toList)).1 true (by decide)
  · have h := (qa_approval_derivation 90 ("Score: 95\nIssues:\n- none".toList)).2 (by decide)
    simpa using h

/-- C9: a consistency completion text that matches neither an
`Errors: <count>` pattern with a positive count nor an explicit
`Approved: No` line parses with `approved = true`. -/
theorem consistency_default_approval (content : List Char)
    (hsent : containsSub content ("CONSISTENCY CHECK COMPLETE".toList) = true)
    (herr : ((findCountSection ("Errors:".toList)
      [("Warnings:".toList), ("Approved:".toList)] content).all
        (fun r => r.1 = 0)) = true)
    (happ : findApproved content ≠ some false) :
    (ConsistencyAgent.parseConsistencyResult content).approved = true := by
  unfold ConsistencyAgent.parseConsistencyResult
  rcases he : findCountSection ("Errors:".toList)
      [("Warnings:".toList), ("Approved:".toList)] content with _ | ⟨n, txt⟩ <;>
    rcases ha : findApproved content with _ | b
  · simp [he, ha]
  · rcases b with _ | _
    · exact absurd ha happ
    · simp [he, ha]
  · rw [he] at herr
    simp only [Option.all] at herr
    have hn : n = 0 := by simpa using herr
    simp [he, ha, hn]
  · rcases b with _ | _
    · exact absurd ha happ
    · simp [he, ha]

/-- Witness for C9: a report with `Errors: 0` and no approval line is
approved by default. -/
theorem consistency_default_approval_witness :
    (ConsistencyAgent.parseConsistencyResult
      ("CONSISTENCY CHECK COMPLETE:\nErrors: 0\nWarnings: 0".toList)).approved = true :=
  consistency_default_approval
    ("CONSISTENCY CHECK COMPLETE:\nErrors: 0\nWarnings: 0".toList)
    (by decide) (by decide) (by decide)

/-- With a retryable error on every attempt, the retry loop performs every
remaining attempt up to `maxAttempts`. -/
theorem retryFromAux_allfail {α : Type} (e : Main.ProviderError)
    (hre : Main.should_retry_provider_error e = true) (mA : Nat) :
    ∀ fuel a, a + fuel = mA →
      (Main.retryFromAux (fun _ => (Except.error e : Except Main.ProviderError α))
        mA a fuel).2 = mA := by
  intro fuel
  induction fuel with
  | zero =>
    intro a h
    have ha : a = mA := by omega
    subst ha
    rw [Main.retryFromAux]
    simp
  | succ fuel ih =>
    intro a h
    have hne : ¬ (a = mA) := by omega
    rw [Main.retryFromAux]
    simp only [hre, decide_eq_false hne, Bool.not_true, Bool.or_false]
    exact ih (a + 1) (by omega)

/-- C7 counterexample: `should_retry_provider_error` retries a 401 whose
message mentions model inference, and the backoff delays of attempts 6 and 7
are both the 10-second cap, so the delay is not strictly increasing. -/
theorem retry_classifier_counterexample :
    Main.should_retry_provider_error
      ⟨some 401, ("401 unauthorized: model inference failed".toList)⟩ = true ∧
    Main.sleepDelay 6 = 10 ∧ Main.sleepDelay 7 = 10 := by
  refine ⟨by decide, ?_, ?_⟩ <;> norm_num [Main.sleepDelay, Main.BASE_BACKOFF]

/-- C7 amended: `is_transient_error` never retries 400/401/403 nor any other
non-429 4xx (including 408, despite its docstring); it retries 500/502/503/504
and a 429 without a hard rate-limit message; `should_retry_provider_error`
additionally retries any message mentioning the inference server regardless
of status; a retryable failure is retried up to the configured attempt
count; and the backoff delay `min(1.5^attempt, 10)` is strictly increasing
only below the cap (attempts 1-5) and constant 10 from attempt 6 on. -/
theorem retry_classification :
    (∀ msg, Main.is_transient_error ⟨some 400, msg⟩ = false) ∧
    (∀ msg, Main.is_transient_error ⟨some 401, msg⟩ = false) ∧
    (∀ msg, Main.is_transient_error ⟨some 403, msg⟩ = false) ∧
    (∀ (sc : Int) msg, 400 ≤ sc → sc < 500 → sc ≠ 429 →
      Main.is_transient_error ⟨some sc, msg⟩ = false) ∧
    (∀ msg, Main.is_transient_error ⟨some 503, msg⟩ = true) ∧
    (∀ msg, Main.is_transient_error ⟨some 500, msg⟩ = true) ∧
    (∀ msg, Main.is_transient_error ⟨some 502, msg⟩ = true) ∧
    (∀ msg, Main.is_transient_error ⟨some 504, msg⟩ = true) ∧
    (∀ msg, Main.hardRateLimitMsg (lcList msg) = false →
      Main.is_transient_error ⟨some 429, msg⟩ = true) ∧
    (∀ st msg, containsSub (lcList msg) ("inference server".toList) = true →
      Main.should_retry_provider_error ⟨st, msg⟩ = true) ∧
    (∀ (e : Main.ProviderError) (mA : Nat), 1 ≤ mA →
      Main.should_retry_provider_error e = true →
      (Main.retryCall (fun _ => (Except.error e : Except Main.ProviderError Unit)) mA).2 = mA) ∧
    (∀ a : Nat, 1 ≤ a → a ≤ 5 → Main.sleepDelay a < Main.sleepDelay (a + 1)) ∧
    (∀ a : Nat, 6 ≤ a → Main.sleepDelay a = 10) := by
  refine ⟨?_, ?_, ?_, ?_, ?_, ?_, ?_, ?_, ?_, ?_, ?_, ?_, ?_⟩
  · intro msg; rfl
  · intro msg; rfl
  · intro msg; rfl
  · intro sc msg h1 h2 h3
    simp only [Main.is_transient_error]
    split_ifs <;> simp_all
  · intro msg; rfl
  · intro msg; rfl
  · intro msg; rfl
  · intro msg; rfl
  · intro msg h
    simp [Main.is_transient_error, h]
  · intro st msg h
    simp only [Main.should_retry_provider_error, h, Bool.true_or]
    simp
  · intro e mA h1 h2
    unfold Main.retryCall
    exact retryFromAux_allfail e h2 mA (mA - 1) 1 (by omega)
  · intro a h1 h2
    interval_cases a <;> norm_num [Main.sleepDelay, Main.BASE_BACKOFF]
  · intro a h
    have hlt : (10 : ℚ) < Main.BASE_BACKOFF ^ a := by
      calc (10 : ℚ) < Main.BASE_BACKOFF ^ 6 := by norm_num [Main.BASE_BACKOFF]
        _ ≤ Main.BASE_BACKOFF ^ a := by
          apply pow_le_pow_right₀ (by norm_num [Main.BASE_BACKOFF]) h
    simp [Main.sleepDelay, hlt]

/-- Witness for the amended C7 at concrete inputs. -/
theorem retry_classification_witness :
    Main.is_transient_error ⟨some 404, ("not found".toList)⟩ = false ∧
    Main.is_transient_error ⟨some 429, ("slow down".toList)⟩ = true ∧
    Main.should_retry_provider_error ⟨some 401, ("inference server crashed".toList)⟩ = true ∧
    (Main.retryCall (fun _ =>
      (Except.error ⟨some 503, ("oops".toList)⟩ : Except Main.ProviderError Unit)) 3).2 = 3 ∧
    Main.sleepDelay 2 < Main.sleepDelay 3 ∧
    Main.sleepDelay 8 = 10 := by
  refine ⟨?_, ?_, ?_, ?_, ?_, ?_⟩
  · exact retry_classification.2.2.2.1 404 ("not found".toList) (by omega) (by omega) (by omega)
  · exact retry_classification.2.2.2.2.2.2.2.2.1 ("slow down".toList) (by decide)
  · exact retry_classification.2.2.2.2.2.2.2.2.2.1 (some 401)
      ("inference server crashed".toList) (by decide)
  · exact retry_classification.2.2.2.2.2.2.2.2.2.2.1
      ⟨some 503, ("oops".toList)⟩ 3 (by omega) (by decide)
  · exact retry_classification.2.2.2.2.2.2.2.2.2.2.2.1 2 (by omega) (by omega)
  · exact retry_classification.2.2.2.2.2.2.2.2.2.2.2.2 8 (by omega)

/-- C6: in the QA auto-revision sub-loop, a revision cycle whose re-review
score either reaches the threshold 90 or fails to strictly exceed the score
before the cycle ends the loop at that cycle, returning that re-review
result with the cycle counter of that cycle — in particular before the
remaining cycle budget (`fuel`) is spent. -/
theorem qa_revision_loop_stops (env : StoryForgeOrchestrator.OrchestratorEnv)
    (qa : QAResultO) (cycle ri fuel : Nat)
    (h1 : qa.approved = false) (h2 : qa.success = true)
    (h3 : (env.qaRevision cycle).revised = true)
    (h4 : 90 ≤ (env.qaReview ri).score ∨ (env.qaReview ri).score ≤ qa.score) :
    StoryForgeOrchestrator.qaRevisionLoop env qa cycle ri (fuel + 1) =
      (env.qaReview ri, cycle + 1) := by
  rw [StoryForgeOrchestrator.qaRevisionLoop]
  simp only [h1, h2, h3, Bool.not_true, Bool.or_false, if_false, Bool.false_eq_true,
    if_true]
  by_cases h90 : 90 ≤ (env.qaReview ri).score
  · simp [h90]
  · have hle : (env.qaReview ri).score ≤ qa.score := h4.resolve_left h90
    simp [h90, hle]

/-- Witness for C6: with a full budget of 3 cycles, a non-improving
re-review (72 after 72) stops the loop at cycle 1. -/
theorem qa_revision_loop_stops_witness :
    StoryForgeOrchestrator.qaRevisionLoop envPlateau ⟨true, false, 72⟩ 0 1 3 =
      (⟨true, false, 72⟩, 1) :=
  qa_revision_loop_stops envPlateau ⟨true, false, 72⟩ 0 1 2 rfl rfl rfl
    (Or.inr (Nat.le_refl 72))

theorem trackProjectPath_completed (s : Session) (stage : Stage) (r : StageData) :
    (SessionManager.trackProjectPath s stage r).completed_stages = s.completed_stages := by
  unfold SessionManager.trackProjectPath
  split_ifs
  · rcases r with x|x|x|x|x <;> try rfl
    rcases hp : x.project_path with _ | p
    · simp [hp]
    · simp only [hp]
      split_ifs <;> rfl
  · rfl

theorem trackQAScore_completed (s : Session) (stage : Stage) (r : StageData) :
    (SessionManager.trackQAScore s stage r).completed_stages = s.completed_stages := by
  unfold SessionManager.trackQAScore
  split_ifs
  · rcases r with x|x|x|x|x <;> try rfl
    simp only []
    split_ifs <;> rfl
  · rfl

theorem advanceStage_completed (s : Session) (stage : Stage) :
    (SessionManager.advanceStage s stage).completed_stages =
      (if s.completed_stages.contains stage then s.completed_stages
       else s.completed_stages ++ [stage]) := by
  unfold SessionManager.advanceStage
  split_ifs <;> simp [apply_ite Session.completed_stages]

theorem update_stage_completed (s : Session) (stage : Stage) (r : StageData) (b : Bool) (n : Nat) :
    (SessionManager.update_stage s stage r b n).completed_stages =
      stepCompleted s.completed_stages stage b := by
  unfold SessionManager.update_stage stepCompleted
  rw [trackQAScore_completed, trackProjectPath_completed]
  cases b
  · rfl
  · simp [advanceStage_completed]

theorem mark_failed_completed (s : Session) (st e : String) (n : Nat) :
    (SessionManager.mark_failed s st e n).completed_stages = s.completed_stages := rfl

theorem mark_complete_completed (s : Session) (fs : Option Nat) (n : Nat) :
    (SessionManager.mark_complete s fs n).completed_stages = s.completed_stages := by
  cases fs <;> rfl

theorem settingsStep_error_spec (env : StoryForgeOrchestrator.OrchestratorEnv)
    (s0 : Session) (r : StoryForgeOrchestrator.PipelineResults)
    (out : Session × StoryForgeOrchestrator.PipelineResults)
    (h : StoryForgeOrchestrator.settingsStep env s0 r = .error out) :
    (!(SessionManager.should_skip_stage s0 .settings) && !env.settingsResult.success) = true ∧
    out.1.completed_stages = s0.completed_stages := by
  simp only [StoryForgeOrchestrator.settingsStep] at h
  split_ifs at h <;> simp only [Except.error.injEq, reduceCtorEq] at h
  · simp_all
  · rename_i hc hsk
    subst h
    refine ⟨hc, ?_⟩
    simp only [Bool.and_eq_true, Bool.not_eq_true'] at hc
    show (SessionManager.mark_failed (SessionManager.update_stage _ _ _ _ _) _ _ _).completed_stages = _
    rw [mark_failed_completed, update_stage_completed]
    simp [stepCompleted, hc.2]

theorem settingsStep_ok_spec (env : StoryForgeOrchestrator.OrchestratorEnv)
    (s0 : Session) (r : StoryForgeOrchestrator.PipelineResults)
    (st : Session × StoryForgeOrchestrator.PipelineResults)
    (h : StoryForgeOrchestrator.settingsStep env s0 r = .ok st) :
    (!(SessionManager.should_skip_stage s0 .settings) && !env.settingsResult.success) = false ∧
    st.1.completed_stages =
      (if SessionManager.should_skip_stage s0 .settings then s0.completed_stages
       else stepCompleted s0.completed_stages .settings env.settingsResult.success) := by
  simp only [StoryForgeOrchestrator.settingsStep] at h
  split_ifs at h <;> simp only [Except.ok.injEq, reduceCtorEq] at h
  · rename_i hc hsk
    subst h
    refine ⟨by simp_all, ?_⟩
    simp [hsk]
  · rename_i hc hsk
    subst h
    refine ⟨by simp_all, ?_⟩
    rw [if_neg hsk]
    show (SessionManager.update_stage _ _ _ _ _).completed_stages = _
    rw [update_stage_completed]

theorem planningStep_error_spec (env : StoryForgeOrchestrator.OrchestratorEnv)
    (s0 : Session) (r : StoryForgeOrchestrator.PipelineResults)
    (out : Session × StoryForgeOrchestrator.PipelineResults)
    (h : StoryForgeOrchestrator.planningStep env s0 r = .error out) :
    (!(SessionManager.should_skip_stage s0 .planning) && !env.planningResult.success) = true ∧
    out.1.completed_stages = s0.completed_stages := by
  simp only [StoryForgeOrchestrator.planningStep] at h
  split_ifs at h <;> simp only [Except.error.injEq, reduceCtorEq] at h
  · simp_all
  · rename_i hc hsk
    subst h
    refine ⟨hc, ?_⟩
    simp only [Bool.and_eq_true, Bool.not_eq_true'] at hc
    show (SessionManager.mark_failed (SessionManager.update_stage _ _ _ _ _) _ _ _).completed_stages = _
    rw [mark_failed_completed, update_stage_completed]
    simp [stepCompleted, hc.2]

theorem planningStep_ok_spec (env : StoryForgeOrchestrator.OrchestratorEnv)
    (s0 : Session) (r : StoryForgeOrchestrator.PipelineResults)
    (st : Session × StoryForgeOrchestrator.PipelineResults)
    (h : StoryForgeOrchestrator.planningStep env s0 r = .ok st) :
    (!(SessionManager.should_skip_stage s0 .planning) && !env.planningResult.success) = false ∧
    st.1.completed_stages =
      (if SessionManager.should_skip_stage s0 .planning then s0.completed_stages
       else stepCompleted s0.completed_stages .planning env.planningResult.success) := by
  simp only [StoryForgeOrchestrator.planningStep] at h
  split_ifs at h <;> simp only [Except.ok.injEq, reduceCtorEq] at h
  · rename_i hc hsk
    subst h
    refine ⟨by simp_all, ?_⟩
    simp [hsk]
  · rename_i hc hsk
    subst h
    refine ⟨by simp_all, ?_⟩
    rw [if_neg hsk]
    show (SessionManager.update_stage _ _ _ _ _).completed_stages = _
    rw [update_stage_completed]

theorem writingStep_error_spec (env : StoryForgeOrchestrator.OrchestratorEnv)
    (s0 : Session) (r : StoryForgeOrchestrator.PipelineResults)
    (out : Session × StoryForgeOrchestrator.PipelineResults)
    (h : StoryForgeOrchestrator.writingStep env s0 r = .error out) :
    (!(SessionManager.should_skip_stage s0 .writing) && !env.writingResult.success) = true ∧
    out.1.completed_stages = s0.completed_stages := by
  simp only [StoryForgeOrchestrator.writingStep] at h
  split_ifs at h <;> simp only [Except.error.injEq, reduceCtorEq] at h
  · simp_all
  · rename_i hc hsk
    subst h
    refine ⟨hc, ?_⟩
    simp only [Bool.and_eq_true, Bool.not_eq_true'] at hc
    show (SessionManager.mark_failed (SessionManager.update_stage _ _ _ _ _) _ _ _).completed_stages = _
    rw [mark_failed_completed, update_stage_completed]
    simp [stepCompleted, hc.2]

theorem writingStep_ok_spec (env : StoryForgeOrchestrator.OrchestratorEnv)
    (s0 : Session) (r : StoryForgeOrchestrator.PipelineResults)
    (st : Session × StoryForgeOrchestrator.PipelineResults)
    (h : StoryForgeOrchestrator.writingStep env s0 r = .ok st) :
    (!(SessionManager.should_skip_stage s0 .writing) && !env.writingResult.success) = false ∧
    st.1.completed_stages =
      (if SessionManager.should_skip_stage s0 .writing then s0.completed_stages
       else stepCompleted s0.completed_stages .writing env.writingResult.success) := by
  simp only [StoryForgeOrchestrator.writingStep] at h
  split_ifs at h <;> simp only [Except.ok.injEq, reduceCtorEq] at h
  · rename_i hc hsk
    subst h
    refine ⟨by simp_all, ?_⟩
    simp [hsk]
  · rename_i hc hsk
    subst h
    refine ⟨by simp_all, ?_⟩
    rw [if_neg hsk]
    show (SessionManager.update_stage _ _ _ _ _).completed_stages = _
    rw [update_stage_completed]

theorem qaStep_fst_completed (env : StoryForgeOrchestrator.OrchestratorEnv)
    (s3 : Session) (r : StoryForgeOrchestrator.PipelineResults) :
    (StoryForgeOrchestrator.qaStep env s3 r).1.completed_stages =
      (if SessionManager.should_skip_stage s3 .qa then s3.completed_stages
       else stepCompleted s3.completed_stages .qa
         (StoryForgeOrchestrator.qaPhase env).1.success) := by
  unfold StoryForgeOrchestrator.qaStep
  by_cases hskip : SessionManager.should_skip_stage s3 .qa = true <;>
    simp [hskip, update_stage_completed]

theorem consistencyStep_fst_completed (env : StoryForgeOrchestrator.OrchestratorEnv)
    (s4 : Session) (r : StoryForgeOrchestrator.PipelineResults) :
    (StoryForgeOrchestrator.consistencyStep env s4 r).1.completed_stages =
      (if SessionManager.should_skip_stage s4 .consistency then s4.completed_stages
       else stepCompleted s4.completed_stages .consistency
         (StoryForgeOrchestrator.consistencyPhase env).success) := by
  unfold StoryForgeOrchestrator.consistencyStep
  by_cases hskip : SessionManager.should_skip_stage s4 .consistency = true <;>
    simp [hskip, update_stage_completed]

theorem classify_fst_completed (s5 : Session)
    (r5 : StoryForgeOrchestrator.PipelineResults) (now : Nat) :
    (StoryForgeOrchestrator.classify s5 r5 now).1.completed_stages =
      s5.completed_stages := by
  simp only [StoryForgeOrchestrator.classify]
  split_ifs <;>
    simp [mark_complete_completed, mark_failed_completed]

theorem stepCompleted_false (c : List Stage) (st : Stage) :
    stepCompleted c st false = c := rfl

theorem run_completed (up : String) (s0 : Session)
    (env : StoryForgeOrchestrator.OrchestratorEnv) :
    (StoryForgeOrchestrator.run up s0 env).1.completed_stages =
      runCompleted s0.completed_stages env.settingsResult.success
        env.planningResult.success env.writingResult.success
        (StoryForgeOrchestrator.qaPhase env).1.success
        (StoryForgeOrchestrator.consistencyPhase env).success := by
  rw [StoryForgeOrchestrator.run]
  rcases h1 : StoryForgeOrchestrator.settingsStep env s0
      (StoryForgeOrchestrator.initialResults up s0.session_id) with out1 | ⟨s1, r1⟩
  · obtain ⟨hc1, hcomp1⟩ := settingsStep_error_spec env s0 _ out1 h1
    simp only [SessionManager.should_skip_stage] at hc1
    have h1' := hc1
    simp only [Bool.and_eq_true, Bool.not_eq_true'] at h1'
    simp [h1, hcomp1, runCompleted, hc1, h1'.1, h1'.2, stepCompleted_false]
  · obtain ⟨hc1, hcomp1⟩ := settingsStep_ok_spec env s0 _ (s1, r1) h1
    simp only [SessionManager.should_skip_stage] at hc1 hcomp1
    rcases h2 : StoryForgeOrchestrator.planningStep env s1 r1 with out2 | ⟨s2, r2⟩
    · obtain ⟨hc2, hcomp2⟩ := planningStep_error_spec env s1 r1 out2 h2
      simp only [SessionManager.should_skip_stage, hcomp1] at hc2
      have h2' := hc2
      simp only [Bool.and_eq_true, Bool.not_eq_true'] at h2'
      simp [h1, h2, hcomp2, hcomp1, runCompleted, hc1, hc2, h2'.1, h2'.2, stepCompleted_false]
    · obtain ⟨hc2, hcomp2⟩ := planningStep_ok_spec env s1 r1 (s2, r2) h2
      simp only [SessionManager.should_skip_stage, hcomp1] at hc2 hcomp2
      rcases h3 : StoryForgeOrchestrator.writingStep env s2 r2 with out3 | ⟨s3, r3⟩
      · obtain ⟨hc3, hcomp3⟩ := writingStep_error_spec env s2 r2 out3 h3
        simp only [SessionManager.should_skip_stage, hcomp2] at hc3
        have h3' := hc3
        simp only [Bool.and_eq_true, Bool.not_eq_true'] at h3'
        simp [h1, h2, h3, hcomp3, hcomp2, runCompleted, hc1, hc2, hc3, h3'.1, h3'.2,
          stepCompleted_false]
      · obtain ⟨hc3, hcomp3⟩ := writingStep_ok_spec env s2 r2 (s3, r3) h3
        simp only [SessionManager.should_skip_stage, hcomp2] at hc3 hcomp3
        rcases hq : StoryForgeOrchestrator.qaStep env s3 r3 with ⟨s4, r4⟩
        have h4 : s4.completed_stages =
            (if s3.completed_stages.contains .qa then s3.completed_stages
             else stepCompleted s3.completed_stages .qa
               (StoryForgeOrchestrator.qaPhase env).1.success) := by
          have := qaStep_fst_completed env s3 r3
          rw [hq] at this
          simpa [SessionManager.should_skip_stage] using this
        rcases hc : StoryForgeOrchestrator.consistencyStep env s4 r4 with ⟨s5, r5⟩
        have h5 : s5.completed_stages =
            (if s4.completed_stages.contains .consistency then s4.completed_stages
             else stepCompleted s4.completed_stages .consistency
               (StoryForgeOrchestrator.consistencyPhase env).success) := by
          have := consistencyStep_fst_completed env s4 r4
          rw [hc] at this
          simpa [SessionManager.should_skip_stage] using this
        simp only [h1, h2, h3, hq, hc, classify_fst_completed]
        rw [h5, h4, hcomp3]
        simp only [runCompleted, hc1, hc2, hc3, Bool.false_eq_true, if_false]

theorem prefix_of_stages_cases {c : List Stage} (h : c <+: SessionManager.STAGES) :
    c = [] ∨ c = [.settings] ∨ c = [.settings, .planning] ∨
    c = [.settings, .planning, .writing] ∨
    c = [.settings, .planning, .writing, .qa] ∨
    c = [.settings, .planning, .writing, .qa, .consistency] := by
  obtain ⟨t, ht⟩ := h
  rcases c with _ | ⟨a1, _ | ⟨a2, _ | ⟨a3, _ | ⟨a4, _ | ⟨a5, _ | ⟨a6, rest⟩⟩⟩⟩⟩⟩ <;>
    simp only [SessionManager.STAGES, List.cons_append, List.nil_append,
      List.cons.injEq] at ht <;>
    simp_all

theorem runCompleted_prefix (c : List Stage) (b1 b2 b3 b5 : Bool)
    (hpre : c <+: SessionManager.STAGES) :
    runCompleted c b1 b2 b3 true b5 <+: SessionManager.STAGES := by
  rcases prefix_of_stages_cases hpre with rfl | rfl | rfl | rfl | rfl | rfl <;>
    revert b1 b2 b3 b5 <;> decide

/-- C2 amended: starting from any session whose completed_stages is a
prefix of the fixed stage order, a pipeline run preserves prefix-ness
provided the final qa result of the qa phase has success = True; a qa hard
failure does not abort the run before consistency, which breaks the
invariant (see the counterexample). -/
theorem completed_stages_prefix (up : String) (s0 : Session)
    (env : StoryForgeOrchestrator.OrchestratorEnv)
    (hpre : s0.completed_stages <+: SessionManager.STAGES)
    (hqa : (StoryForgeOrchestrator.qaPhase env).1.success = true) :
    (StoryForgeOrchestrator.run up s0 env).1.completed_stages <+: SessionManager.STAGES := by
  rw [run_completed, hqa]
  exact runCompleted_prefix _ _ _ _ _ hpre

/-- Witness for the amended C2: a full run from a fresh session with a
successful qa phase leaves completed_stages a prefix of the stage order. -/
theorem completed_stages_prefix_witness :
    (StoryForgeOrchestrator.run "p" sessionFresh envPartial).1.completed_stages <+:
      SessionManager.STAGES :=
  completed_stages_prefix "p" sessionFresh envPartial (by decide) (by decide)

/-- C2 counterexample: with a qa transport failure and a successful
consistency stage, the persisted completed_stages is
`[settings, planning, writing, consistency]` — qa is missing, so the list
is not a prefix of the fixed order. -/
theorem completed_stages_prefix_counterexample :
    ¬ ((StoryForgeOrchestrator.run "p" sessionFresh envQAFailure).1.completed_stages <+:
      SessionManager.STAGES) ∧
    (StoryForgeOrchestrator.run "p" sessionFresh envQAFailure).1.completed_stages =
      [.settings, .planning, .writing, .consistency] := by
  constructor <;> decide

theorem mark_complete_status (s : Session) (fs : Option Nat) (n : Nat) :
    (SessionManager.mark_complete s fs n).status = "complete" := by
  cases fs <;> rfl

theorem settingsStep_error_partial_success (env : StoryForgeOrchestrator.OrchestratorEnv)
    (s0 : Session) (r : StoryForgeOrchestrator.PipelineResults)
    (out : Session × StoryForgeOrchestrator.PipelineResults)
    (h : StoryForgeOrchestrator.settingsStep env s0 r = .error out) :
    out.2.partial_success = r.partial_success := by
  simp only [StoryForgeOrchestrator.settingsStep] at h
  split_ifs at h <;> simp only [Except.error.injEq, reduceCtorEq] at h <;>
    (try subst h) <;> rfl

theorem settingsStep_ok_partial_success (env : StoryForgeOrchestrator.OrchestratorEnv)
    (s0 : Session) (r : StoryForgeOrchestrator.PipelineResults)
    (st : Session × StoryForgeOrchestrator.PipelineResults)
    (h : StoryForgeOrchestrator.settingsStep env s0 r = .ok st) :
    st.2.partial_success = r.partial_success := by
  simp only [StoryForgeOrchestrator.settingsStep] at h
  split_ifs at h <;> simp only [Except.ok.injEq, reduceCtorEq] at h <;>
    (try subst h) <;> rfl

theorem planningStep_error_partial_success (env : StoryForgeOrchestrator.OrchestratorEnv)
    (s1 : Session) (r : StoryForgeOrchestrator.PipelineResults)
    (out : Session × StoryForgeOrchestrator.PipelineResults)
    (h : StoryForgeOrchestrator.planningStep env s1 r = .error out) :
    out.2.partial_success = r.partial_success := by
  simp only [StoryForgeOrchestrator.planningStep] at h
  split_ifs at h <;> simp only [Except.error.injEq, reduceCtorEq] at h <;>
    (try subst h) <;> rfl

theorem planningStep_ok_partial_success (env : StoryForgeOrchestrator.OrchestratorEnv)
    (s1 : Session) (r : StoryForgeOrchestrator.PipelineResults)
    (st : Session × StoryForgeOrchestrator.PipelineResults)
    (h : StoryForgeOrchestrator.planningStep env s1 r = .ok st) :
    st.2.partial_success = r.partial_success := by
  simp only [StoryForgeOrchestrator.planningStep] at h
  split_ifs at h <;> simp only [Except.ok.injEq, reduceCtorEq] at h <;>
    (try subst h) <;> rfl

theorem writingStep_error_partial_success (env : StoryForgeOrchestrator.OrchestratorEnv)
    (s2 : Session) (r : StoryForgeOrchestrator.PipelineResults)
    (out : Session × StoryForgeOrchestrator.PipelineResults)
    (h : StoryForgeOrchestrator.writingStep env s2 r = .error out) :
    out.2.partial_success = r.partial_success := by
  simp only [StoryForgeOrchestrator.writingStep] at h
  split_ifs at h <;> simp only [Except.error.injEq, reduceCtorEq] at h <;>
    (try subst h) <;> rfl

theorem writingStep_ok_partial_success (env : StoryForgeOrchestrator.OrchestratorEnv)
    (s2 : Session) (r : StoryForgeOrchestrator.PipelineResults)
    (st : Session × StoryForgeOrchestrator.PipelineResults)
    (h : StoryForgeOrchestrator.writingStep env s2 r = .ok st) :
    st.2.partial_success = r.partial_success := by
  simp only [StoryForgeOrchestrator.writingStep] at h
  split_ifs at h <;> simp only [Except.ok.injEq, reduceCtorEq] at h <;>
    (try subst h) <;> rfl

theorem classify_snd (s5 : Session) (r5 : StoryForgeOrchestrator.PipelineResults) (now : Nat) :
    (StoryForgeOrchestrator.classify s5 r5 now).2 =
      { r5 with
        success := ((r5.writing.map (fun w => w.success)).getD false &&
          (r5.qa.map (fun q => q.approved)).getD false &&
          (r5.consistency.map (fun c => c.approved)).getD false)
        partial_success := some ((r5.writing.map (fun w => w.success)).getD false &&
          !((r5.writing.map (fun w => w.success)).getD false &&
            (r5.qa.map (fun q => q.approved)).getD false &&
            (r5.consistency.map (fun c => c.approved)).getD false)) } := rfl

/-- Every run either aborts early (no `partial_success` key) or ends in the
final classification. -/
theorem run_eq_cases (up : String) (s0 : Session)
    (env : StoryForgeOrchestrator.OrchestratorEnv) :
    (StoryForgeOrchestrator.run up s0 env).2.partial_success = none ∨
    ∃ s5 r5, StoryForgeOrchestrator.run up s0 env =
      StoryForgeOrchestrator.classify s5 r5 env.now := by
  rw [StoryForgeOrchestrator.run]
  rcases h1 : StoryForgeOrchestrator.settingsStep env s0
      (StoryForgeOrchestrator.initialResults up s0.session_id) with out1 | ⟨s1, r1⟩
  · left
    simp only [h1]
    rw [settingsStep_error_partial_success env s0 _ out1 h1]
    rfl
  · simp only [h1]
    rcases h2 : StoryForgeOrchestrator.planningStep env s1 r1 with out2 | ⟨s2, r2⟩
    · left
      simp only [h2]
      rw [planningStep_error_partial_success env s1 r1 out2 h2,
        settingsStep_ok_partial_success env s0 _ (s1, r1) h1]
      rfl
    · simp only [h2]
      rcases h3 : StoryForgeOrchestrator.writingStep env s2 r2 with out3 | ⟨s3, r3⟩
      · left
        simp only [h3]
        rw [writingStep_error_partial_success env s2 r2 out3 h3,
          planningStep_ok_partial_success env s1 r1 (s2, r2) h2,
          settingsStep_ok_partial_success env s0 _ (s1, r1) h1]
        rfl
      · right
        simp only [h3]
        exact ⟨_, _, rfl⟩

/-- C5: whenever a pipeline run reaches the final classification (the
returned dict carries a `partial_success` key), `success` holds exactly when
the writing result succeeded and both the final qa and consistency results
are approved, and `partial_success` holds exactly when writing succeeded but
`success` is false. -/
theorem pipeline_success_classification (up : String) (s0 : Session)
    (env : StoryForgeOrchestrator.OrchestratorEnv) (p : Bool)
    (h : (StoryForgeOrchestrator.run up s0 env).2.partial_success = some p) :
    ((StoryForgeOrchestrator.run up s0 env).2.success =
      ((((StoryForgeOrchestrator.run up s0 env).2.writing).map (fun w => w.success)).getD false &&
       (((StoryForgeOrchestrator.run up s0 env).2.qa).map (fun q => q.approved)).getD false &&
       (((StoryForgeOrchestrator.run up s0 env).2.consistency).map (fun c => c.approved)).getD false)) ∧
    p = ((((StoryForgeOrchestrator.run up s0 env).2.writing).map (fun w => w.success)).getD false &&
         !(StoryForgeOrchestrator.run up s0 env).2.success) := by
  rcases run_eq_cases up s0 env with hnone | ⟨s5, r5, heq⟩
  · rw [hnone] at h
    cases h
  · rw [heq] at h ⊢
    rw [classify_snd] at h ⊢
    simp only [Option.some.injEq] at h
    subst h
    exact ⟨rfl, rfl⟩

/-- C10: a run that ends with `partial_success = True` leaves the persisted
session marked `complete`, so it is excluded from
`get_incomplete_sessions` and cannot be found for resumption. -/
theorem partial_success_marks_complete (up : String) (s0 : Session)
    (env : StoryForgeOrchestrator.OrchestratorEnv)
    (h : (StoryForgeOrchestrator.run up s0 env).2.partial_success = some true) :
    (StoryForgeOrchestrator.run up s0 env).1.status = "complete" ∧
    ∀ L : List Session,
      (StoryForgeOrchestrator.run up s0 env).1 ∉ SessionManager.get_incomplete_sessions L := by
  have hst : (StoryForgeOrchestrator.run up s0 env).1.status = "complete" := by
    rcases run_eq_cases up s0 env with hnone | ⟨s5, r5, heq⟩
    · rw [hnone] at h
      cases h
    · rw [heq] at h ⊢
      rw [classify_snd] at h
      simp only [Option.some.injEq] at h
      simp only [StoryForgeOrchestrator.classify]
      split_ifs with hA <;> exact mark_complete_status _ _ _
  refine ⟨hst, ?_⟩
  intro L hmem
  have h1 := List.mem_mergeSort.mp hmem
  have h2 := List.mem_filter.mp h1
  rw [hst] at h2
  simp at h2

/-- Witness for C5 at a concrete partial-success run. -/
theorem pipeline_success_classification_witness :
    ((StoryForgeOrchestrator.run "p" sessionFresh envPartial).2.success =
      ((((StoryForgeOrchestrator.run "p" sessionFresh envPartial).2.writing).map
          (fun w => w.success)).getD false &&
       (((StoryForgeOrchestrator.run "p" sessionFresh envPartial).2.qa).map
          (fun q => q.approved)).getD false &&
       (((StoryForgeOrchestrator.run "p" sessionFresh envPartial).2.consistency).map
          (fun c => c.approved)).getD false)) ∧
    true = ((((StoryForgeOrchestrator.run "p" sessionFresh envPartial).2.writing).map
          (fun w => w.success)).getD false &&
        !(StoryForgeOrchestrator.run "p" sessionFresh envPartial).2.success) :=
  pipeline_success_classification "p" sessionFresh envPartial true rfl

/-- Witness for C10 at the same concrete partial-success run. -/
theorem partial_success_marks_complete_witness :
    (StoryForgeOrchestrator.run "p" sessionFresh envPartial).1.status = "complete" ∧
    (StoryForgeOrchestrator.run "p" sessionFresh envPartial).1 ∉
      SessionManager.get_incomplete_sessions
        [(StoryForgeOrchestrator.run "p" sessionFresh envPartial).1] :=
  ⟨(partial_success_marks_complete "p" sessionFresh envPartial rfl).1,
   (partial_success_marks_complete "p" sessionFresh envPartial rfl).2
     [(StoryForgeOrchestrator.run "p" sessionFresh envPartial).1]⟩


theorem reviewLoopAux_exhaust (env : AgentEnv) (threshold : Nat) :
    ∀ fuel i msgs,
      (∀ j, i ≤ j → j < i + fuel →
        ∃ r, env.respond j = .ok r ∧
          containsSub r.content ("QA REVIEW COMPLETE".toList) = false) →
      QualityAssuranceAgent.reviewLoopAux env threshold i fuel msgs = .ok none := by
  intro fuel
  induction fuel with
  | zero => intro i msgs _; rfl
  | succ fuel ih =>
    intro i msgs h
    obtain ⟨r, hr, hs⟩ := h i (Nat.le_refl i) (by omega)
    rw [QualityAssuranceAgent.reviewLoopAux, hr]
    simp only [hs, Bool.false_eq_true, if_false]
    exact ih (i + 1) _ (fun j hj1 hj2 => h j (by omega) (by omega))

theorem validateLoopAux_exhaust (env : AgentEnv) :
    ∀ fuel i msgs,
      (∀ j, i ≤ j → j < i + fuel →
        ∃ r, env.respond j = .ok r ∧
          containsSub r.content ("CONSISTENCY CHECK COMPLETE".toList) = false) →
      ConsistencyAgent.validateLoopAux env i fuel msgs = .ok none := by
  intro fuel
  induction fuel with
  | zero => intro i msgs _; rfl
  | succ fuel ih =>
    intro i msgs h
    obtain ⟨r, hr, hs⟩ := h i (Nat.le_refl i) (by omega)
    rw [ConsistencyAgent.validateLoopAux, hr]
    simp only [hs, Bool.false_eq_true, if_false]
    exact ih (i + 1) _ (fun j hj1 hj2 => h j (by omega) (by omega))

theorem planLoopAux_exhaust (env : PlannerAgent.PlannerEnv) :
    ∀ fuel i msgs pp,
      (∀ j, i ≤ j → j < i + fuel →
        ∃ r, env.respond j = .ok r ∧
          containsSub r.content ("PLANNING COMPLETE".toList) = false) →
      PlannerAgent.planLoopAux env i fuel msgs pp =
        ⟨false, none, [], 10,
          some ("Max planning iterations reached without completion".toList)⟩ := by
  intro fuel
  induction fuel with
  | zero => intro i msgs pp _; rfl
  | succ fuel ih =>
    intro i msgs pp h
    obtain ⟨r, hr, hs⟩ := h i (Nat.le_refl i) (by omega)
    rw [PlannerAgent.planLoopAux, hr]
    simp only [hs, Bool.false_eq_true, if_false]
    exact ih (i + 1) _ _ (fun j hj1 hj2 => h j (by omega) (by omega))

/-- C1 counterexample: the planner agent, run to iteration exhaustion on a
model that never emits its sentinel, returns a hard failure with
`success = False` — not a successful "incomplete" result. -/
theorem planner_exhaustion_counterexample :
    (PlannerAgent.plan envNoSentinel []).success = false ∧
    (PlannerAgent.plan envNoSentinel []).error =
      some ("Max planning iterations reached without completion".toList) := by
  constructor <;> rfl

/-- C1 amended: on iteration exhaustion without the sentinel, the QA review
loop returns `success=True` with the not-approved incomplete payload (score
50) and the consistency loop returns `success=True` not approved, but the
planner loop instead returns a hard failure with `success=False` and the
max-iterations error message. -/
theorem stage_loop_exhaustion (envQ envC : AgentEnv) (envP : PlannerAgent.PlannerEnv)
    (msgsQ msgsC msgsP : List Msg) (ic : Nat) (phase : String)
    (hq : ∀ j, 1 ≤ j → j ≤ 5 →
      ∃ r, envQ.respond j = .ok r ∧
        containsSub r.content ("QA REVIEW COMPLETE".toList) = false)
    (hcv : ∀ j, 1 ≤ j → j ≤ 8 →
      ∃ r, envC.respond j = .ok r ∧
        containsSub r.content ("CONSISTENCY CHECK COMPLETE".toList) = false)
    (hp : ∀ j, 1 ≤ j → j ≤ 10 →
      ∃ r, envP.respond j = .ok r ∧
        containsSub r.content ("PLANNING COMPLETE".toList) = false) :
    ((QualityAssuranceAgent.review_content envQ ic phase msgsQ).success = true ∧
     (QualityAssuranceAgent.review_content envQ ic phase msgsQ).approved = false ∧
     (QualityAssuranceAgent.review_content envQ ic phase msgsQ).score = 50) ∧
    ((ConsistencyAgent.validate_consistency envC msgsC).success = true ∧
     (ConsistencyAgent.validate_consistency envC msgsC).approved = false) ∧
    ((PlannerAgent.plan envP msgsP).success = false ∧
     (PlannerAgent.plan envP msgsP).error =
       some ("Max planning iterations reached without completion".toList)) := by
  have h1 : QualityAssuranceAgent.reviewLoopAux envQ
      (QualityAssuranceAgent.contextAwareThreshold phase (ic + 1)) 1 5 msgsQ = .ok none :=
    reviewLoopAux_exhaust envQ _ 5 1 msgsQ (fun j hj1 hj2 => hq j hj1 (by omega))
  have h2 : ConsistencyAgent.validateLoopAux envC 1 8 msgsC = .ok none :=
    validateLoopAux_exhaust envC 8 1 msgsC (fun j hj1 hj2 => hcv j hj1 (by omega))
  have h3 := planLoopAux_exhaust envP 10 1 msgsP none
    (fun j hj1 hj2 => hp j hj1 (by omega))
  refine ⟨?_, ?_, ?_⟩
  · unfold QualityAssuranceAgent.review_content
    simp [h1]
  · unfold ConsistencyAgent.validate_consistency
    simp [h2]
  · unfold PlannerAgent.plan
    simp [h3]

/-- Witness for the amended C1 at concrete sentinel-free environments. -/
theorem stage_loop_exhaustion_witness :
    ((QualityAssuranceAgent.review_content envNoSentinel.toAgentEnv 0 "final" []).success = true ∧
     (QualityAssuranceAgent.review_content envNoSentinel.toAgentEnv 0 "final" []).approved = false ∧
     (QualityAssuranceAgent.review_content envNoSentinel.toAgentEnv 0 "final" []).score = 50) ∧
    ((ConsistencyAgent.validate_consistency envNoSentinel.toAgentEnv []).success = true ∧
     (ConsistencyAgent.validate_consistency envNoSentinel.toAgentEnv []).approved = false) ∧
    ((PlannerAgent.plan envNoSentinel []).success = false ∧
     (PlannerAgent.plan envNoSentinel []).error =
       some ("Max planning iterations reached without completion".toList)) :=
  stage_loop_exhaustion envNoSentinel.toAgentEnv envNoSentinel.toAgentEnv envNoSentinel
    [] [] [] 0 "final"
    (fun j _ _ => ⟨⟨("still thinking".toList), []⟩, rfl, by decide⟩)
    (fun j _ _ => ⟨⟨("still thinking".toList), []⟩, rfl, by decide⟩)
    (fun j _ _ => ⟨⟨("still thinking".toList), []⟩, rfl, by decide⟩)

theorem execToolCallsMain_mono (env : AgentEnv) :
    ∀ tcs msgs (m : Msg), m ∈ msgs → m ∈ execToolCallsMain env tcs msgs := by
  intro tcs
  induction tcs with
  | nil => intro msgs m hm; exact hm
  | cons tc rest ih =>
    intro msgs m hm
    rw [execToolCallsMain]
    rcases hp : env.parseJson tc.arguments with _ | args <;> simp only [hp]
    · exact ih msgs m hm
    · rcases ht : env.toolMap tc.name with _ | f <;> simp only [ht]
      · exact ih msgs m hm
      · rcases hf : f args with e | res <;> simp only [hf]
        · exact ih _ m (List.mem_append_left _ hm)
        · exact ih _ m (List.mem_append_left _ hm)

theorem execToolCallsPlanner_mono (env : AgentEnv) :
    ∀ tcs msgs pp (m : Msg), m ∈ msgs →
      m ∈ (PlannerAgent.execToolCalls env tcs msgs pp).1 := by
  intro tcs
  induction tcs with
  | nil => intro msgs pp m hm; exact hm
  | cons tc rest ih =>
    intro msgs pp m hm
    rw [PlannerAgent.execToolCalls]
    rcases hp : env.parseJson tc.arguments with _ | args <;> simp only [hp]
    · exact ih msgs pp m hm
    · rcases ht : env.toolMap tc.name with _ | f <;> simp only [ht]
      · exact ih msgs pp m hm
      · rcases hf : f args with e | res <;> simp only [hf]
        · exact ih _ _ m (List.mem_append_left _ hm)
        · exact ih _ _ m (List.mem_append_left _ hm)

/-- C3 counterexample: in the quiet dispatcher used by the QA revision loop
and the consistency fix loop, a raised tool exception appends nothing — the
resulting history is empty, with no tool message for the call id. -/
theorem quiet_loop_drops_tool_error :
    execToolCallsQuiet envToolRaises [⟨"call_1", "write_file", "{}"⟩] [] = [] := rfl

/-- C3 amended: when a tool raises, the dispatcher shared by the main stage
loops (planner plan, qa review_content, consistency validate_consistency)
appends a tool message `ERROR: <message>` whose `tool_call_id` is the
originating call id and continues; the dispatcher of the QA revision loop
and the consistency fix loop also continues with the remaining calls but
appends no message for the failed call. -/
theorem tool_error_feedback (env : AgentEnv) (tc : ToolCall) (rest : List ToolCall)
    (msgs : List Msg) (pp : Option (List Char)) (args : String)
    (f : String → Except (List Char) (List Char)) (e : List Char)
    (hparse : env.parseJson tc.arguments = some args)
    (htool : env.toolMap tc.name = some f)
    (herr : f args = .error e) :
    ((⟨"tool", ("ERROR: ".toList) ++ e, some tc.id, some tc.name, []⟩ : Msg) ∈
       execToolCallsMain env (tc :: rest) msgs) ∧
    ((⟨"tool", ("ERROR: ".toList) ++ e, some tc.id, some tc.name, []⟩ : Msg) ∈
       (PlannerAgent.execToolCalls env (tc :: rest) msgs pp).1) ∧
    execToolCallsQuiet env (tc :: rest) msgs = execToolCallsQuiet env rest msgs := by
  refine ⟨?_, ?_, ?_⟩
  · rw [execToolCallsMain]
    simp only [hparse, htool, herr]
    exact execToolCallsMain_mono env rest _ _
      (List.mem_append_right _ (by simp [toolMsg]))
  · rw [PlannerAgent.execToolCalls]
    simp only [hparse, htool, herr]
    exact execToolCallsPlanner_mono env rest _ _ _
      (List.mem_append_right _ (by simp [toolMsg]))
  · rw [execToolCallsQuiet]
    simp only [hparse, htool, herr]

/-- Witness for the amended C3 at a concrete raising tool. -/
theorem tool_error_feedback_witness :
    ((⟨"tool", ("ERROR: ".toList) ++ ("boom".toList), some "call_1", some "write_file", []⟩ : Msg) ∈
       execToolCallsMain envToolRaises [⟨"call_1", "write_file", "{}"⟩] []) ∧
    ((⟨"tool", ("ERROR: ".toList) ++ ("boom".toList), some "call_1", some "write_file", []⟩ : Msg) ∈
       (PlannerAgent.execToolCalls envToolRaises [⟨"call_1", "write_file", "{}"⟩] [] none).1) ∧
    execToolCallsQuiet envToolRaises [⟨"call_1", "write_file", "{}"⟩] [] =
      execToolCallsQuiet envToolRaises [] [] :=
  tool_error_feedback envToolRaises ⟨"call_1", "write_file", "{}"⟩ [] [] none "{}"
    (fun _ => .error ("boom".toList)) ("boom".toList) rfl rfl rfl

/-- C8 counterexample: a tool call with malformed JSON arguments is skipped
with nothing appended to the history — no error-content tool-result message
is recorded for it. -/
theorem malformed_json_counterexample :
    execToolCallsMain envBadJson [⟨"call_1", "write_file", "not json"⟩] [] = [] := rfl

/-- C8 amended: a tool call whose argument string fails JSON decoding is
skipped — every stage dispatcher continues with the remaining calls and the
stage does not abort — but no error tool-result message is appended for the
malformed call. -/
theorem malformed_json_skips_call (env : AgentEnv) (tc : ToolCall) (rest : List ToolCall)
    (msgs : List Msg) (pp : Option (List Char))
    (hparse : env.parseJson tc.arguments = none) :
    execToolCallsMain env (tc :: rest) msgs = execToolCallsMain env rest msgs ∧
    PlannerAgent.execToolCalls env (tc :: rest) msgs pp =
      PlannerAgent.execToolCalls env rest msgs pp ∧
    execToolCallsQuiet env (tc :: rest) msgs = execToolCallsQuiet env rest msgs := by
  refine ⟨?_, ?_, ?_⟩
  · rw [execToolCallsMain]
    simp only [hparse]
  · rw [PlannerAgent.execToolCalls]
    simp only [hparse]
  · rw [execToolCallsQuiet]
    simp only [hparse]

/-- Witness for the amended C8 at a concrete malformed-JSON environment. -/
theorem malformed_json_skips_call_witness :
    execToolCallsMain envBadJson [⟨"c1", "write_file", "oops"⟩] [] =
      execToolCallsMain envBadJson [] [] ∧
    PlannerAgent.execToolCalls envBadJson [⟨"c1", "write_file", "oops"⟩] [] none =
      PlannerAgent.execToolCalls envBadJson [] [] none ∧
    execToolCallsQuiet envBadJson [⟨"c1", "write_file", "oops"⟩] [] =
      execToolCallsQuiet envBadJson [] [] :=
  malformed_json_skips_call envBadJson ⟨"c1", "write_file", "oops"⟩ [] [] none rfl

end StoryForge
